import Mathlib

/-!
Verification of the LostKit `game_view.py` navigation-lock and
instrumentation-bridge subsystem.

Python strings are modelled as `List Char` (`PyStr`); Qt objects
(`QUrl`, events, page and widget state) are modelled as Lean structures
carrying exactly the fields the code reads.  Python float zoom factors are
modelled as rationals.  Each definition is a direct translation of the
correspondingly named Python function or method in `game_view.py`.
-/

abbrev PyStr := List Char

/-- Coerce a Lean string literal to the `List Char` model of Python strings. -/
def pstr (s : String) : PyStr := s.data

/-- ASCII lowercasing of one character, as Python `str.lower` acts on the
ASCII range (the only range the code compares against). -/
def lowerChar (c : Char) : Char :=
  if 65 ≤ c.toNat ∧ c.toNat ≤ 90 then Char.ofNat (c.toNat + 32) else c

/-- Model of Python `str.lower()`. -/
def pyLower (s : PyStr) : PyStr := s.map lowerChar

/-- Python `str.strip()` whitespace set (ASCII part). -/
def isPySpace (c : Char) : Bool :=
  c = ' ' || c = '\t' || c = '\n' || c = '\r' || c = '\x0b' || c = '\x0c'

/-- Model of Python `str.strip()`: drop whitespace from both ends. -/
def pyStrip (s : PyStr) : PyStr :=
  (((s.dropWhile isPySpace).reverse.dropWhile isPySpace)).reverse

/-- `Char.toNat` of `Char.ofNat n` recovers `n` for valid code points. -/
theorem char_toNat_ofNat (n : Nat) (h : n.isValidChar) :
    (Char.ofNat n).toNat = n := by
  simp only [Char.ofNat, h, dif_pos, Char.ofNatAux, Char.toNat]
  rfl

/-- `lowerChar` can only produce a character below code point 65 (e.g. a
colon or a slash) from that character itself. -/
theorem lowerChar_eq_of_lt (c d : Char) (hd : d.toNat < 65)
    (h : lowerChar c = d) : c = d := by
  unfold lowerChar at h
  split_ifs at h with hc
  · exfalso
    have hv : (c.toNat + 32).isValidChar := by
      left
      omega
    have := congrArg Char.toNat h
    rw [char_toNat_ofNat _ hv] at this
    omega
  · exact h

/-- Lowercasing introduces no new occurrences of characters below code
point 65 (used for ':' and '/'). -/
theorem not_mem_pyLower (c : Char) (hc : c.toNat < 65) (s : PyStr)
    (h : c ∉ s) : c ∉ pyLower s := by
  intro hm
  rcases List.mem_map.mp hm with ⟨d, hd, hlow⟩
  exact h (lowerChar_eq_of_lt d c hc hlow ▸ hd)

theorem pyLower_append (a b : PyStr) : pyLower (a ++ b) = pyLower a ++ pyLower b :=
  List.map_append lowerChar a b

theorem pyLower_prefix {a b : PyStr} (h : a <+: b) : pyLower a <+: pyLower b :=
  h.map lowerChar

/-- Model of a `QUrl` as the code reads it: validity flag plus the string
components returned by `scheme()`, `host()` and `path()`. -/
structure QUrl where
  isValid : Bool
  scheme : PyStr
  host : PyStr
  path : PyStr

/-- Model of `QUrl.toString()` for URLs built from scheme, host and path
(the shapes this application navigates between). -/
def QUrl.toString (u : QUrl) : PyStr := u.scheme ++ pstr "://" ++ u.host ++ u.path

/-- `game_view._is_lostcity_game_client_url`: `None` and invalid URLs are
rejected, then the lowercased host and path are matched against the base
client shape and the world-server shape. -/
def _is_lostcity_game_client_url : Option QUrl → Bool
  | none => false
  | some u =>
    if u.isValid = false then false
    else
      let host := pyLower u.host
      let path := pyLower u.path
      if host == pstr "2004.lostcity.rs" && List.isPrefixOf (pstr "/client") path then
        true
      else if List.isSuffixOf (pstr "-2004.lostcity.rs") host then
        let pre := List.takeWhile (fun c => c != '-') host
        if List.isPrefixOf (pstr "w") pre && List.isPrefixOf (pstr "/rs2.cgi") path then
          true
        else
          false
      else
        false

/-- C1: for every valid URL, `_is_lostcity_game_client_url` returns `True`
exactly when (a) the lowercased host equals "2004.lostcity.rs" and the
lowercased path starts with "/client", or (b) the lowercased host ends with
"-2004.lostcity.rs", the host segment before the first "-" starts with "w",
and the lowercased path starts with "/rs2.cgi"; every other valid URL
yields `False`. -/
theorem c1_protected_surface_detector (u : QUrl) (hv : u.isValid = true) :
    _is_lostcity_game_client_url (some u) = true ↔
      ((pyLower u.host = pstr "2004.lostcity.rs" ∧ pstr "/client" <+: pyLower u.path) ∨
       (pstr "-2004.lostcity.rs" <:+ pyLower u.host ∧
        pstr "w" <+: List.takeWhile (fun c => c != '-') (pyLower u.host) ∧
        pstr "/rs2.cgi" <+: pyLower u.path)) := by
  simp only [_is_lostcity_game_client_url, hv]
  split_ifs with h1 h2 h3 <;>
    simp_all [List.isPrefixOf_iff_prefix, List.isSuffixOf_iff_suffix, beq_iff_eq]

/-- C1 witness: the world-server URL w2-2004.lostcity.rs/rs2.cgi is
detected as the protected surface. -/
theorem c1_witness :
    (QUrl.mk true (pstr "https") (pstr "w2-2004.lostcity.rs") (pstr "/rs2.cgi")).isValid = true ∧
    (_is_lostcity_game_client_url
        (some (QUrl.mk true (pstr "https") (pstr "w2-2004.lostcity.rs") (pstr "/rs2.cgi"))) = true ↔
      ((pyLower (pstr "w2-2004.lostcity.rs") = pstr "2004.lostcity.rs" ∧
          pstr "/client" <+: pyLower (pstr "/rs2.cgi")) ∨
       (pstr "-2004.lostcity.rs" <:+ pyLower (pstr "w2-2004.lostcity.rs") ∧
        pstr "w" <+: List.takeWhile (fun c => c != '-') (pyLower (pstr "w2-2004.lostcity.rs")) ∧
        pstr "/rs2.cgi" <+: pyLower (pstr "/rs2.cgi")))) :=
  ⟨rfl, c1_protected_surface_detector _ rfl⟩

/-- C9: the detector is a total function in the model; it returns `False`
on `None` and on every invalid URL. -/
theorem c9_detector_total_safe :
    _is_lostcity_game_client_url none = false ∧
    ∀ u : QUrl, u.isValid = false → _is_lostcity_game_client_url (some u) = false := by
  refine ⟨rfl, fun u h => ?_⟩
  simp [_is_lostcity_game_client_url, h]

/-- C9 witness: an invalid URL with otherwise matching components is
rejected. -/
theorem c9_witness :
    (QUrl.mk false (pstr "https") (pstr "2004.lostcity.rs") (pstr "/client")).isValid = false ∧
    _is_lostcity_game_client_url
      (some (QUrl.mk false (pstr "https") (pstr "2004.lostcity.rs") (pstr "/client"))) = false :=
  ⟨rfl, c9_detector_total_safe.2 _ rfl⟩

/-! ## GamePage: navigation blocking and the lostkit message channel -/

/-- Qt navigation types passed to `acceptNavigationRequest`. -/
inductive NavigationType where
  | NavigationTypeLinkClicked
  | NavigationTypeTyped
  | NavigationTypeFormSubmitted
  | NavigationTypeBackForward
  | NavigationTypeReload
  | NavigationTypeRedirect
  | NavigationTypeOther
deriving DecidableEq

/-- Result of `acceptNavigationRequest`: `blocked` models `return False`,
`delegated` models falling through to `super().acceptNavigationRequest`. -/
inductive NavReturn where
  | blocked
  | delegated
deriving DecidableEq

/-- The observable outcome of one `acceptNavigationRequest` call. -/
structure NavOutcome where
  ret : NavReturn
  screenshotInvoked : Bool

/-- The `GamePage` state the modelled methods read: the lowercased pattern
list installed by `set_blocked_back_patterns`, whether a screenshot and a
click-log handler are set (callable), and the URL of the attached view
(`None` when no view is attached). -/
structure PageState where
  blockedBackPatterns : List PyStr
  screenshotHandlerSet : Bool
  clickLogHandlerSet : Bool
  viewUrl : Option QUrl

/-- `GamePage.set_blocked_back_patterns`: stores the patterns lowercased. -/
def set_blocked_back_patterns (pats : List PyStr) : List PyStr := pats.map pyLower

/-- `GamePage._should_block_back_forward`: no view or an invalid current
URL never blocks; the LostCity client URL always blocks; otherwise any
configured pattern matching the lowercased URL string blocks. -/
def _should_block_back_forward (st : PageState) : Bool :=
  match st.viewUrl with
  | none => false
  | some current =>
    if current.isValid = false then false
    else if _is_lostcity_game_client_url (some current) then true
    else st.blockedBackPatterns.any (fun pat => List.isPrefixOf pat (pyLower current.toString))

/-- The guard of the custom-scheme branch of `acceptNavigationRequest`:
scheme is "lostkit" (case-insensitively) and the target (host, or the
path stripped of leading slashes when the host is empty) is nonempty and
starts with "take-screenshot" case-insensitively. -/
def lostkitScreenshotTrigger (url : QUrl) : Bool :=
  pyLower url.scheme == pstr "lostkit" &&
    (let target := if url.host.isEmpty then url.path.dropWhile (fun c => c == '/') else url.host
     !target.isEmpty && List.isPrefixOf (pstr "take-screenshot") (pyLower target))

/-- `GamePage.acceptNavigationRequest`: the lostkit screenshot channel is
checked first (invoking the handler when set and returning `False`); then
back/forward navigation is blocked while `_should_block_back_forward`
holds; every other request is delegated to the default handling. -/
def acceptNavigationRequest (st : PageState) (url : QUrl) (navType : NavigationType)
    (_isMainFrame : Bool) : NavOutcome :=
  if lostkitScreenshotTrigger url then
    { ret := .blocked, screenshotInvoked := st.screenshotHandlerSet }
  else if navType = .NavigationTypeBackForward ∧ _should_block_back_forward st = true then
    { ret := .blocked, screenshotInvoked := false }
  else
    { ret := .delegated, screenshotInvoked := false }

/-- The current URL of the page view is the protected game-client surface. -/
def currentProtected (st : PageState) : Bool :=
  match st.viewUrl with
  | none => false
  | some u => _is_lostcity_game_client_url (some u)

/-- Structural well-formedness of a parsed URL: scheme and host contain no
':' and no '/', and the path is empty or starts with '/'.  Every URL a
`QUrl` reports components for has this shape. -/
def QUrl.WellFormed (u : QUrl) : Prop :=
  ':' ∉ u.scheme ∧ '/' ∉ u.scheme ∧ ':' ∉ u.host ∧ '/' ∉ u.host ∧
    (u.path = [] ∨ u.path.head? = some '/')

instance (u : QUrl) : Decidable u.WellFormed := by
  unfold QUrl.WellFormed
  infer_instance

/-- Splitting a prefix relation at a separator character that occurs in
neither of the leading parts. -/
theorem prefix_split {c : Char} (s : List Char) :
    ∀ {p₁ t p₂ : List Char}, c ∉ s → c ∉ p₁ →
      (p₁ ++ c :: p₂) <+: (s ++ c :: t) → p₁ = s ∧ p₂ <+: t := by
  induction s with
  | nil =>
    intro p₁ t p₂ _ hp h
    match p₁, hp, h with
    | [], _, h =>
      rw [List.nil_append, List.nil_append] at h
      exact ⟨rfl, (List.cons_prefix_cons.mp h).2⟩
    | a :: p₁, hp, h =>
      rw [List.cons_append, List.nil_append] at h
      rcases List.cons_prefix_cons.mp h with ⟨rfl, -⟩
      exact absurd (List.mem_cons_self _ _) hp
  | cons b s ih =>
    intro p₁ t p₂ hs hp h
    match p₁, hp, h with
    | [], _, h =>
      rw [List.nil_append, List.cons_append] at h
      rcases List.cons_prefix_cons.mp h with ⟨rfl, -⟩
      exact absurd (List.mem_cons_self _ _) hs
    | a :: p₁, hp, h =>
      rw [List.cons_append, List.cons_append] at h
      rcases List.cons_prefix_cons.mp h with ⟨rfl, h2⟩
      obtain ⟨he, hpre⟩ :=
        ih (fun hm => hs (List.mem_cons_of_mem _ hm))
          (fun hm => hp (List.mem_cons_of_mem _ hm)) h2
      exact ⟨by rw [he], hpre⟩

/-- A well-formed URL whose lowercased string form starts with
"https://2004.lostcity.rs/client" is detected as the game client. -/
theorem pattern_match_implies_client (u : QUrl) (hw : u.WellFormed) (hv : u.isValid = true)
    (h : pstr "https://2004.lostcity.rs/client" <+: pyLower u.toString) :
    _is_lostcity_game_client_url (some u) = true := by
  obtain ⟨hcs, hss, hch, hsh, hpath⟩ := hw
  have hx : pyLower u.toString =
      pyLower u.scheme ++ ':' :: '/' :: '/' :: (pyLower u.host ++ pyLower u.path) := by
    have h3 : pyLower (pstr "://") = [':', '/', '/'] := by decide
    simp only [QUrl.toString, pyLower_append, List.append_assoc, h3, List.cons_append,
      List.nil_append]
  rw [hx] at h
  have hdec : pstr "https://2004.lostcity.rs/client" =
      pstr "https" ++ ':' :: pstr "//2004.lostcity.rs/client" := by decide
  rw [hdec] at h
  obtain ⟨-, h2⟩ :=
    prefix_split (pyLower u.scheme)
      (not_mem_pyLower ':' (by decide) u.scheme hcs) (by decide) h
  have hdec2 : pstr "//2004.lostcity.rs/client" =
      '/' :: '/' :: pstr "2004.lostcity.rs/client" := by decide
  rw [hdec2] at h2
  have h3 := (List.cons_prefix_cons.mp h2).2
  have h4 := (List.cons_prefix_cons.mp h3).2
  rcases hpath with hpe | hph
  · exfalso
    rw [hpe] at h4
    have hsub : pstr "2004.lostcity.rs/client" ⊆ pyLower u.host := by
      simpa [pyLower] using h4.subset
    exact not_mem_pyLower '/' (by decide) u.host hsh (hsub (by decide))
  · obtain ⟨p0, r, hpr⟩ : ∃ p0 r, u.path = p0 :: r := by
      cases hup : u.path with
      | nil => rw [hup] at hph; simp at hph
      | cons p0 r => exact ⟨p0, r, rfl⟩
    have hp0 : p0 = '/' := by
      rw [hpr] at hph
      simpa using hph
    subst hp0
    have hlp : pyLower u.path = '/' :: pyLower r := by
      rw [hpr]
      simp [pyLower, lowerChar]
    rw [hlp] at h4
    have hdec3 : pstr "2004.lostcity.rs/client" =
        pstr "2004.lostcity.rs" ++ '/' :: pstr "client" := by decide
    rw [hdec3] at h4
    obtain ⟨hhost, hcl⟩ :=
      prefix_split (pyLower u.host)
        (not_mem_pyLower '/' (by decide) u.host hsh) (by decide) h4
    simp only [_is_lostcity_game_client_url, hv]
    rw [if_neg (by simp)]
    have hbeq : (pyLower u.host == pstr "2004.lostcity.rs") = true := by
      rw [← hhost]
      exact beq_self_eq_true _
    have hpref : List.isPrefixOf (pstr "/client") (pyLower u.path) = true := by
      rw [List.isPrefixOf_iff_prefix, hlp]
      have : pstr "/client" = '/' :: pstr "client" := by decide
      rw [this]
      exact List.cons_prefix_cons.mpr ⟨rfl, hcl⟩
    rw [if_pos]
    rw [hbeq, hpref]
    rfl

/-- With the configured pattern list and well-formed URLs, the back/forward
block predicate coincides with being on the protected surface. -/
theorem should_block_eq_protected (st : PageState)
    (hpat : st.blockedBackPatterns = set_blocked_back_patterns [pstr "https://2004.lostcity.rs/client"])
    (hwf : ∀ u, st.viewUrl = some u → u.WellFormed) :
    _should_block_back_forward st = currentProtected st := by
  cases hvu : st.viewUrl with
  | none =>
    unfold _should_block_back_forward currentProtected
    rw [hvu]
  | some u =>
    unfold _should_block_back_forward currentProtected
    rw [hvu]
    dsimp only
    cases hval : u.isValid with
    | false =>
      simp [c9_detector_total_safe.2 u hval]
    | true =>
      rw [if_neg (by simp)]
      cases hcl : _is_lostcity_game_client_url (some u) with
      | true => rw [if_pos rfl]
      | false =>
        rw [if_neg (by simp)]
        rw [hpat]
        simp only [set_blocked_back_patterns, List.map_cons, List.map_nil, List.any_cons,
          List.any_nil, Bool.or_false]
        have hlowpat : pyLower (pstr "https://2004.lostcity.rs/client") =
            pstr "https://2004.lostcity.rs/client" := by decide
        rw [hlowpat]
        cases hpm : List.isPrefixOf (pstr "https://2004.lostcity.rs/client") (pyLower u.toString) with
        | false => rfl
        | true =>
          exfalso
          have := pattern_match_implies_client u (hwf u hvu) hval
            (List.isPrefixOf_iff_prefix.mp hpm)
          rw [hcl] at this
          exact Bool.false_ne_true this

/-- A non-protected page state with the configured pattern list, a set
screenshot handler and a generic current page. -/
def examplePageState : PageState :=
  { blockedBackPatterns := set_blocked_back_patterns [pstr "https://2004.lostcity.rs/client"]
    screenshotHandlerSet := true
    clickLogHandlerSet := true
    viewUrl := some (QUrl.mk true (pstr "https") (pstr "example.com") (pstr "/")) }

/-- A lostkit take-screenshot navigation target. -/
def lostkitNavUrl : QUrl := QUrl.mk true (pstr "lostkit") (pstr "take-screenshot") []

/-- C2 counterexample: a back/forward navigation request to
lostkit://take-screenshot returns `False` (is blocked) even though the
current URL, https://example.com/, is not the protected surface — the
claimed "returns False exactly when on the protected surface" fails. -/
theorem c2_counterexample :
    (acceptNavigationRequest examplePageState lostkitNavUrl
        .NavigationTypeBackForward true).ret = .blocked ∧
    currentProtected examplePageState = false := by
  constructor
  · rfl
  · rfl

/-- C2 (amended): for every back/forward navigation request whose URL is
not a lostkit take-screenshot trigger, given the configured blocked-back
pattern list, `acceptNavigationRequest` returns `False` exactly when the
view's current URL is the protected game-client surface, and otherwise
delegates to the default handling. -/
theorem c2_back_forward_blocking (st : PageState) (url : QUrl) (mf : Bool)
    (hpat : st.blockedBackPatterns = set_blocked_back_patterns [pstr "https://2004.lostcity.rs/client"])
    (hwf : ∀ u, st.viewUrl = some u → u.WellFormed)
    (hlk : lostkitScreenshotTrigger url = false) :
    ((acceptNavigationRequest st url .NavigationTypeBackForward mf).ret = .blocked ↔
        currentProtected st = true) ∧
    (currentProtected st = false →
      (acceptNavigationRequest st url .NavigationTypeBackForward mf).ret = .delegated) := by
  have hb := should_block_eq_protected st hpat hwf
  unfold acceptNavigationRequest
  rw [hlk]
  simp only [Bool.false_eq_true, if_false]
  cases hcp : currentProtected st with
  | true =>
    rw [hcp] at hb
    simp [hb]
  | false =>
    rw [hcp] at hb
    simp [hb]

/-- A protected page state: the current URL is the base game client. -/
def protectedPageState : PageState :=
  { blockedBackPatterns := set_blocked_back_patterns [pstr "https://2004.lostcity.rs/client"]
    screenshotHandlerSet := true
    clickLogHandlerSet := true
    viewUrl := some (QUrl.mk true (pstr "https") (pstr "2004.lostcity.rs") (pstr "/client")) }

/-- An unrelated https navigation target that is not a lostkit trigger. -/
def plainNavUrl : QUrl := QUrl.mk true (pstr "https") (pstr "example.com") (pstr "/")

/-- C2 witness: on the protected client page, a back/forward navigation to
a plain https URL is blocked. -/
theorem c2_witness :
    protectedPageState.blockedBackPatterns =
        set_blocked_back_patterns [pstr "https://2004.lostcity.rs/client"] ∧
    lostkitScreenshotTrigger plainNavUrl = false ∧
    ((acceptNavigationRequest protectedPageState plainNavUrl
          .NavigationTypeBackForward true).ret = .blocked ↔
      currentProtected protectedPageState = true) := by
  refine ⟨rfl, by decide, ?_⟩
  exact (c2_back_forward_blocking protectedPageState plainNavUrl true rfl
    (fun u h => by
      injection h with h
      subst h
      decide) (by decide)).1

/-- C6: every navigation request with scheme "lostkit" (case-insensitive)
whose host — or leading path segment when the host is empty — starts with
"take-screenshot" invokes the screenshot handler exactly when one is set,
and returns `False` so the navigation never proceeds. -/
theorem c6_lostkit_screenshot_channel (st : PageState) (url : QUrl)
    (navType : NavigationType) (mf : Bool)
    (hscheme : pyLower url.scheme = pstr "lostkit")
    (htarget : (url.host ≠ [] ∧ pstr "take-screenshot" <+: url.host) ∨
               (url.host = [] ∧ pstr "take-screenshot" <+:
                  (url.path.dropWhile (fun c => c == '/')).takeWhile (fun c => c != '/'))) :
    (acceptNavigationRequest st url navType mf).ret = .blocked ∧
    (acceptNavigationRequest st url navType mf).screenshotInvoked = st.screenshotHandlerSet := by
  have hlowts : pyLower (pstr "take-screenshot") = pstr "take-screenshot" := by decide
  have htrig : lostkitScreenshotTrigger url = true := by
    unfold lostkitScreenshotTrigger
    rcases htarget with ⟨hne, hpre⟩ | ⟨he, hpre⟩
    · have hie : url.host.isEmpty = false := by
        cases hh : url.host
        · exact absurd hh hne
        · rfl
      have hpre2 : pstr "take-screenshot" <+: pyLower url.host := hlowts ▸ pyLower_prefix hpre
      simp [hscheme, hie, List.isPrefixOf_iff_prefix, hpre2]
    · have hpre0 : pstr "take-screenshot" <+: url.path.dropWhile (fun c => c == '/') :=
        hpre.trans (List.takeWhile_prefix _)
      have hpre2 : pstr "take-screenshot" <+: pyLower (url.path.dropWhile (fun c => c == '/')) :=
        hlowts ▸ pyLower_prefix hpre0
      have hie : url.host.isEmpty = true := by
        rw [he]
        rfl
      have hne2 : (url.path.dropWhile (fun c => c == '/')).isEmpty = false := by
        cases hd : url.path.dropWhile (fun c => c == '/')
        · rw [hd] at hpre0
          exact absurd hpre0 (by decide)
        · rfl
      simp [hscheme, hie, hne2, List.isPrefixOf_iff_prefix, hpre2]
  unfold acceptNavigationRequest
  rw [htrig]
  exact ⟨rfl, rfl⟩

/-- C6 witness: navigating to lostkit://take-screenshot from an ordinary
page blocks the navigation and invokes the set handler. -/
theorem c6_witness :
    pyLower lostkitNavUrl.scheme = pstr "lostkit" ∧
    lostkitNavUrl.host ≠ [] ∧ pstr "take-screenshot" <+: lostkitNavUrl.host ∧
    (acceptNavigationRequest examplePageState lostkitNavUrl
        .NavigationTypeTyped true).ret = .blocked ∧
    (acceptNavigationRequest examplePageState lostkitNavUrl
        .NavigationTypeTyped true).screenshotInvoked = examplePageState.screenshotHandlerSet := by
  refine ⟨by decide, by decide, by decide, ?_⟩
  exact c6_lostkit_screenshot_channel examplePageState lostkitNavUrl .NavigationTypeTyped true
    (by decide) (Or.inl ⟨by decide, by decide⟩)

/-! ## The click-log console channel -/

/-- `GamePage.javaScriptConsoleMessage`, restricted to its observable
click-channel effect: returns `some payload` when the click-log handler is
invoked with `payload`, and `none` when the handler is not invoked. -/
def javaScriptConsoleMessage (st : PageState) (message : PyStr) : Option PyStr :=
  if List.isPrefixOf (pstr "@@CLICK@@ ") message then
    let payload := message.drop (pstr "@@CLICK@@ ").length
    if st.clickLogHandlerSet then some payload else none
  else
    none

/-- `GameViewWidget._handle_click_log`, acting on the character content of
logs/clicks.jsonl: when `click_log_to_file` is disabled nothing is written;
otherwise the stripped payload plus a newline is appended. -/
def _handle_click_log (click_log_to_file : Bool) (log : PyStr) (json_text : PyStr) : PyStr :=
  if click_log_to_file = false then log
  else log ++ pyStrip json_text ++ ['\n']

/-- One console message flowing through the page listener and, when the
handler is invoked, through the widget click-log handler. -/
def consoleClickPipeline (st : PageState) (click_log_to_file : Bool) (log : PyStr)
    (message : PyStr) : Option PyStr × PyStr :=
  match javaScriptConsoleMessage st message with
  | none => (none, log)
  | some payload => (some payload, _handle_click_log click_log_to_file log payload)

/-- C5 counterexample: with `click_log_to_file` disabled, a prefixed
console message reaches the click-log handler with its payload, yet no
line is appended to logs/clicks.jsonl — the claimed unconditional append
of exactly one line fails. -/
theorem c5_counterexample :
    (consoleClickPipeline examplePageState false [] (pstr "@@CLICK@@ hi")).1 = some (pstr "hi") ∧
    (consoleClickPipeline examplePageState false [] (pstr "@@CLICK@@ hi")).2 = [] := by
  exact ⟨rfl, rfl⟩

/-- C5 (amended): a console message without the "@@CLICK@@ " prefix never
invokes the click-log handler and leaves the log unchanged; a prefixed
message, when a handler is set, passes exactly the remainder after the
prefix to the handler unchanged, and when `click_log_to_file` is enabled
the handler appends the stripped remainder followed by a newline to
logs/clicks.jsonl. -/
theorem c5_click_log_channel (st : PageState) (to_file : Bool) (log msg : PyStr) :
    (List.isPrefixOf (pstr "@@CLICK@@ ") msg = false →
      javaScriptConsoleMessage st msg = none ∧
      (consoleClickPipeline st to_file log msg).2 = log) ∧
    (List.isPrefixOf (pstr "@@CLICK@@ ") msg = true → st.clickLogHandlerSet = true →
      javaScriptConsoleMessage st msg = some (msg.drop (pstr "@@CLICK@@ ").length) ∧
      (to_file = true →
        (consoleClickPipeline st to_file log msg).2 =
          log ++ pyStrip (msg.drop (pstr "@@CLICK@@ ").length) ++ ['\n'])) := by
  constructor
  · intro h
    have hj : javaScriptConsoleMessage st msg = none := by
      unfold javaScriptConsoleMessage
      rw [h]
      rfl
    exact ⟨hj, by unfold consoleClickPipeline; rw [hj]⟩
  · intro h hset
    have hj : javaScriptConsoleMessage st msg = some (msg.drop (pstr "@@CLICK@@ ").length) := by
      unfold javaScriptConsoleMessage
      rw [h, hset]
      rfl
    refine ⟨hj, fun htf => ?_⟩
    unfold consoleClickPipeline
    rw [hj]
    unfold _handle_click_log
    rw [htf]
    rfl

/-- C5 witness: with handler set and file logging on, the message
"@@CLICK@@  hi " appends the stripped payload "hi" plus newline. -/
theorem c5_witness :
    List.isPrefixOf (pstr "@@CLICK@@ ") (pstr "@@CLICK@@  hi ") = true ∧
    examplePageState.clickLogHandlerSet = true ∧
    javaScriptConsoleMessage examplePageState (pstr "@@CLICK@@  hi ") =
      some ((pstr "@@CLICK@@  hi ").drop (pstr "@@CLICK@@ ").length) ∧
    (consoleClickPipeline examplePageState true [] (pstr "@@CLICK@@  hi ")).2 =
      [] ++ pyStrip ((pstr "@@CLICK@@  hi ").drop (pstr "@@CLICK@@ ").length) ++ ['\n'] := by
  have h := (c5_click_log_channel examplePageState true [] (pstr "@@CLICK@@  hi ")).2
    (by decide) (by decide)
  exact ⟨by decide, by decide, h.1, h.2 rfl⟩

/-! ## GameViewWidget: navigation lock on mouse and keyboard, zoom -/

/-- Qt mouse buttons.  `XButton1`/`XButton2` are Qt aliases of
`BackButton`/`ForwardButton` and are modelled below as such. -/
inductive MouseButton where
  | LeftButton
  | RightButton
  | MiddleButton
  | BackButton
  | ForwardButton
  | NoButton
  | TaskButton
deriving DecidableEq

/-- Qt alias: `Qt.MouseButton.XButton1 == Qt.MouseButton.BackButton`. -/
def XButton1 : MouseButton := .BackButton

/-- Qt alias: `Qt.MouseButton.XButton2 == Qt.MouseButton.ForwardButton`. -/
def XButton2 : MouseButton := .ForwardButton

/-- `GameViewWidget._is_navigation_mouse_button`: membership test against
the resolved BackButton/ForwardButton/XButton1/XButton2 attributes. -/
def _is_navigation_mouse_button (b : MouseButton) : Bool :=
  [MouseButton.BackButton, MouseButton.ForwardButton, XButton1, XButton2].any
    (fun btn => decide (b = btn))

/-- The `GameViewWidget` state the modelled handlers read: the current
page URL (`self.page().url()`) and the zoom factor. -/
structure WidgetState where
  pageUrl : QUrl
  zoom_factor : ℚ

/-- `GameViewWidget._should_block_navigation_buttons`: `True` only when
the current page URL is valid and matches the LostCity client. -/
def _should_block_navigation_buttons (st : WidgetState) : Bool :=
  if st.pageUrl.isValid = false then false
  else if _is_lostcity_game_client_url (some st.pageUrl) then true
  else false

/-- Result of a widget event handler: `swallowed` models `event.accept()`
followed by an early return, `passedThrough` models default handling. -/
inductive EventResult where
  | swallowed
  | passedThrough
deriving DecidableEq

/-- `GameViewWidget.mousePressEvent`. -/
def mousePressEvent (st : WidgetState) (button : MouseButton) : EventResult :=
  if _is_navigation_mouse_button button && _should_block_navigation_buttons st then
    .swallowed
  else
    .passedThrough

/-- `GameViewWidget.mouseReleaseEvent`. -/
def mouseReleaseEvent (st : WidgetState) (button : MouseButton) : EventResult :=
  if _is_navigation_mouse_button button && _should_block_navigation_buttons st then
    .swallowed
  else
    .passedThrough

/-- Qt event types distinguished by the generic `event` override. -/
inductive QEventType where
  | MouseButtonPress
  | MouseButtonRelease
  | MouseButtonDblClick
  | OtherEvent
deriving DecidableEq

/-- A Qt event as the generic `event` override reads it: its type, and
its mouse button when the event object has a `button()` accessor. -/
structure QEventM where
  type : QEventType
  button : Option MouseButton

/-- `GameViewWidget.event`: swallows navigation side-button press,
release and double-click while on the game client; everything else goes
to the default `super().event`. -/
def event (st : WidgetState) (e : QEventM) : EventResult :=
  if e.type = .MouseButtonPress ∨ e.type = .MouseButtonRelease ∨
      e.type = .MouseButtonDblClick then
    match e.button with
    | some btn =>
      if _is_navigation_mouse_button btn && _should_block_navigation_buttons st then
        .swallowed
      else
        .passedThrough
    | none => .passedThrough
  else
    .passedThrough

/-- The widget-side block predicate coincides with the detector applied to
the current page URL. -/
theorem should_block_nav_eq (st : WidgetState) :
    _should_block_navigation_buttons st = _is_lostcity_game_client_url (some st.pageUrl) := by
  unfold _should_block_navigation_buttons
  cases hval : st.pageUrl.isValid with
  | false => simp [c9_detector_total_safe.2 _ hval]
  | true =>
    rw [if_neg (by simp)]
    cases hcl : _is_lostcity_game_client_url (some st.pageUrl) with
    | true => rw [if_pos rfl]
    | false => rw [if_neg (by simp)]

/-- Common core of the three mouse handlers. -/
theorem mouse_swallow_iff (st : WidgetState) (b : MouseButton) :
    ((if _is_navigation_mouse_button b && _should_block_navigation_buttons st then
        EventResult.swallowed else .passedThrough) = .swallowed ↔
      (_is_navigation_mouse_button b = true ∧
        _is_lostcity_game_client_url (some st.pageUrl) = true)) := by
  rw [should_block_nav_eq]
  cases h1 : _is_navigation_mouse_button b <;>
    cases h2 : _is_lostcity_game_client_url (some st.pageUrl) <;> simp

/-- C3: navigation side-button press, release and double-click events are
swallowed exactly when the button is a navigation button and the current
URL is the protected game client; otherwise they pass to default
handling. -/
theorem c3_navigation_mouse_buttons (st : WidgetState) (b : MouseButton) (e : QEventM)
    (hty : e.type = .MouseButtonPress ∨ e.type = .MouseButtonRelease ∨
      e.type = .MouseButtonDblClick)
    (hb : e.button = some b) :
    (event st e = .swallowed ↔
      (_is_navigation_mouse_button b = true ∧
        _is_lostcity_game_client_url (some st.pageUrl) = true)) ∧
    (mousePressEvent st b = .swallowed ↔
      (_is_navigation_mouse_button b = true ∧
        _is_lostcity_game_client_url (some st.pageUrl) = true)) ∧
    (mouseReleaseEvent st b = .swallowed ↔
      (_is_navigation_mouse_button b = true ∧
        _is_lostcity_game_client_url (some st.pageUrl) = true)) := by
  refine ⟨?_, mouse_swallow_iff st b, mouse_swallow_iff st b⟩
  unfold event
  rw [hb, if_pos hty]
  exact mouse_swallow_iff st b

/-- A widget currently showing the protected base client page. -/
def protectedWidgetState : WidgetState :=
  { pageUrl := QUrl.mk true (pstr "https") (pstr "2004.lostcity.rs") (pstr "/client")
    zoom_factor := 1 }

/-- C3 witness: a BackButton double-click on the client page is swallowed. -/
theorem c3_witness :
    (QEventM.mk .MouseButtonDblClick (some .BackButton)).type = .MouseButtonDblClick ∧
    (event protectedWidgetState (QEventM.mk .MouseButtonDblClick (some .BackButton)) = .swallowed ↔
      (_is_navigation_mouse_button .BackButton = true ∧
        _is_lostcity_game_client_url (some protectedWidgetState.pageUrl) = true)) := by
  refine ⟨rfl, ?_⟩
  exact (c3_navigation_mouse_buttons protectedWidgetState .BackButton _
    (Or.inr (Or.inr rfl)) rfl).1

/-- The Qt keys this widget distinguishes. -/
inductive QtKey where
  | Key_Back
  | Key_Backspace
  | Key_Left
  | Key_0
  | Key_Plus
  | Key_Equal
  | Key_Minus
  | Key_S
  | Key_Other
deriving DecidableEq

/-- Keyboard modifier flags; `other` stands for any further Qt modifier
flag (Meta, Keypad, ...), which makes an exact comparison with
ControlModifier fail. -/
structure Modifiers where
  ctrl : Bool
  alt : Bool
  shift : Bool
  other : Bool
deriving DecidableEq

/-- Python `event.modifiers() == Qt.KeyboardModifier.ControlModifier`. -/
def modifiersEqCtrl (m : Modifiers) : Bool :=
  m.ctrl && !m.alt && !m.shift && !m.other

/-- A key event: key code plus modifier flags. -/
structure KeyEvent where
  key : QtKey
  modifiers : Modifiers

/-- The navigation-key test of `keyPressEvent`/`keyReleaseEvent`:
Key_Back, Backspace, or Alt held together with Key_Left. -/
def isNavigationKey (e : KeyEvent) : Bool :=
  decide (e.key = .Key_Back) || decide (e.key = .Key_Backspace) ||
    (e.modifiers.alt && decide (e.key = .Key_Left))

/-- Outcome of `keyPressEvent`: swallowed by the navigation lock, consumed
by a zoom shortcut, or passed to `super().keyPressEvent`. -/
inductive KeyOutcome where
  | swallowedNav
  | handledZoom
  | passedThrough
deriving DecidableEq

/-- `GameViewWidget.keyPressEvent`: the navigation lock swallows back keys
while on the game client, then Ctrl+0 / Ctrl+Plus (or Equal) / Ctrl+Minus
adjust the zoom factor, and everything else is handled normally. -/
def keyPressEvent (st : WidgetState) (e : KeyEvent) : WidgetState × KeyOutcome :=
  if _should_block_navigation_buttons st && isNavigationKey e then
    (st, .swallowedNav)
  else if modifiersEqCtrl e.modifiers then
    if e.key = .Key_0 then
      ({ st with zoom_factor := 1 }, .handledZoom)
    else if e.key = .Key_Plus ∨ e.key = .Key_Equal then
      ({ st with zoom_factor := min (st.zoom_factor + 0.1) 5 }, .handledZoom)
    else if e.key = .Key_Minus then
      ({ st with zoom_factor := max (st.zoom_factor - 0.1) 0.25 }, .handledZoom)
    else
      (st, .passedThrough)
  else
    (st, .passedThrough)

/-- `GameViewWidget.keyReleaseEvent`: swallows the same navigation keys
while on the game client, otherwise defers to default handling. -/
def keyReleaseEvent (st : WidgetState) (e : KeyEvent) : EventResult :=
  if _should_block_navigation_buttons st && isNavigationKey e then
    .swallowed
  else
    .passedThrough

/-- C4: while the current URL is the protected game client, key press and
release events for Key_Back, Backspace or Alt+Left are swallowed; on any
other page those keys are handled normally. -/
theorem c4_keyboard_navigation_lock (st : WidgetState) (e : KeyEvent) :
    ((keyPressEvent st e).2 = .swallowedNav ↔
      (_is_lostcity_game_client_url (some st.pageUrl) = true ∧ isNavigationKey e = true)) ∧
    (keyReleaseEvent st e = .swallowed ↔
      (_is_lostcity_game_client_url (some st.pageUrl) = true ∧ isNavigationKey e = true)) ∧
    (_is_lostcity_game_client_url (some st.pageUrl) = false → isNavigationKey e = true →
      (keyPressEvent st e).2 = .passedThrough ∧ keyReleaseEvent st e = .passedThrough) := by
  refine ⟨?_, ?_, ?_⟩
  · unfold keyPressEvent
    rw [should_block_nav_eq]
    cases hcl : _is_lostcity_game_client_url (some st.pageUrl) <;>
      cases hnav : isNavigationKey e <;>
        simp <;> split_ifs <;> simp
  · unfold keyReleaseEvent
    rw [should_block_nav_eq]
    cases hcl : _is_lostcity_game_client_url (some st.pageUrl) <;>
      cases hnav : isNavigationKey e <;> simp
  · intro hcl hnav
    unfold keyPressEvent keyReleaseEvent
    rw [should_block_nav_eq, hcl]
    simp only [Bool.false_and, Bool.false_eq_true, if_false]
    refine ⟨?_, by trivial⟩
    split_ifs with hm hk0 hkp hkm
    · exfalso
      have halt : e.modifiers.alt = false := by
        unfold modifiersEqCtrl at hm
        cases ha : e.modifiers.alt
        · rfl
        · rw [ha] at hm
          simp at hm
      rw [isNavigationKey, hk0, halt] at hnav
      simp at hnav
    · exfalso
      have halt : e.modifiers.alt = false := by
        unfold modifiersEqCtrl at hm
        cases ha : e.modifiers.alt
        · rfl
        · rw [ha] at hm
          simp at hm
      rcases hkp with hk | hk <;> rw [isNavigationKey, hk, halt] at hnav <;> simp at hnav
    · exfalso
      have halt : e.modifiers.alt = false := by
        unfold modifiersEqCtrl at hm
        cases ha : e.modifiers.alt
        · rfl
        · rw [ha] at hm
          simp at hm
      rw [isNavigationKey, hkm, halt] at hnav
      simp at hnav
    · rfl
    · rfl

/-- C4 witness: Backspace on the client page is swallowed on press. -/
theorem c4_witness :
    isNavigationKey (KeyEvent.mk .Key_Backspace (Modifiers.mk false false false false)) = true ∧
    ((keyPressEvent protectedWidgetState
        (KeyEvent.mk .Key_Backspace (Modifiers.mk false false false false))).2 = .swallowedNav ↔
      (_is_lostcity_game_client_url (some protectedWidgetState.pageUrl) = true ∧
        isNavigationKey (KeyEvent.mk .Key_Backspace (Modifiers.mk false false false false)) = true)) := by
  exact ⟨rfl, (c4_keyboard_navigation_lock protectedWidgetState _).1⟩

/-- A wheel event: modifier flags and the vertical angle delta.  (The
Ctrl+Shift+S hotkey branch inside `wheelEvent` reads `event.key()`, which
a `QWheelEvent` does not have; the resulting `AttributeError` is caught
and the branch falls through, so it has no effect and is not modelled.) -/
structure WheelEvent where
  modifiers : Modifiers
  angleDeltaY : Int

/-- `GameViewWidget.wheelEvent`: with Ctrl held, step the zoom by 0.1 in
the wheel direction and clamp to [0.25, 5.0]; otherwise default scroll. -/
def wheelEvent (st : WidgetState) (e : WheelEvent) : WidgetState × EventResult :=
  if modifiersEqCtrl e.modifiers then
    let stepped := if 0 < e.angleDeltaY then st.zoom_factor + 0.1 else st.zoom_factor - 0.1
    ({ st with zoom_factor := max 0.25 (min stepped 5) }, .swallowed)
  else
    (st, .passedThrough)

/-- `GameViewWidget.zoom_in`. -/
def zoom_in (st : WidgetState) : WidgetState :=
  { st with zoom_factor := min (st.zoom_factor + 0.1) 5 }

/-- `GameViewWidget.zoom_out`. -/
def zoom_out (st : WidgetState) : WidgetState :=
  { st with zoom_factor := max (st.zoom_factor - 0.1) 0.25 }

/-- `GameViewWidget.reset_zoom`. -/
def reset_zoom (st : WidgetState) : WidgetState :=
  { st with zoom_factor := 1 }

/-- C8: starting from a zoom factor in [0.25, 5.0], every zoom operation
(Ctrl+wheel, the Ctrl keyboard shortcuts, `zoom_in`, `zoom_out`,
`reset_zoom`) leaves the zoom factor in [0.25, 5.0], and `reset_zoom` and
Ctrl+0 set it to exactly 1. -/
theorem c8_zoom_factor_invariant (st : WidgetState)
    (h1 : 0.25 ≤ st.zoom_factor) (h2 : st.zoom_factor ≤ 5) :
    (∀ e : WheelEvent,
      0.25 ≤ ((wheelEvent st e).1).zoom_factor ∧ ((wheelEvent st e).1).zoom_factor ≤ 5) ∧
    (∀ e : KeyEvent,
      0.25 ≤ ((keyPressEvent st e).1).zoom_factor ∧ ((keyPressEvent st e).1).zoom_factor ≤ 5) ∧
    (0.25 ≤ (zoom_in st).zoom_factor ∧ (zoom_in st).zoom_factor ≤ 5) ∧
    (0.25 ≤ (zoom_out st).zoom_factor ∧ (zoom_out st).zoom_factor ≤ 5) ∧
    (reset_zoom st).zoom_factor = 1 ∧
    (∀ m : Modifiers, modifiersEqCtrl m = true →
      ((keyPressEvent st (KeyEvent.mk .Key_0 m)).1).zoom_factor = 1) := by
  have hin : 0.25 ≤ min (st.zoom_factor + 0.1) 5 ∧ min (st.zoom_factor + 0.1) 5 ≤ 5 :=
    ⟨le_min (by linarith) (by norm_num), min_le_right _ _⟩
  have hout : 0.25 ≤ max (st.zoom_factor - 0.1) 0.25 ∧ max (st.zoom_factor - 0.1) 0.25 ≤ 5 :=
    ⟨le_max_right _ _, max_le (by linarith) (by norm_num)⟩
  refine ⟨?_, ?_, hin, hout, rfl, ?_⟩
  · intro e
    unfold wheelEvent
    split_ifs with hm hd
    · exact ⟨le_max_left _ _, max_le (by norm_num) (min_le_right _ _)⟩
    · exact ⟨le_max_left _ _, max_le (by norm_num) (min_le_right _ _)⟩
    · exact ⟨h1, h2⟩
  · intro e
    unfold keyPressEvent
    split_ifs
    · exact ⟨h1, h2⟩
    · exact ⟨by norm_num, by norm_num⟩
    · exact hin
    · exact hout
    · exact ⟨h1, h2⟩
    · exact ⟨h1, h2⟩
  · intro m hm
    have halt : m.alt = false := by
      unfold modifiersEqCtrl at hm
      cases ha : m.alt
      · rfl
      · rw [ha] at hm
        simp at hm
    unfold keyPressEvent
    rw [if_neg, if_pos hm, if_pos rfl]
    simp only [isNavigationKey, halt]
    simp

/-- C8 witness: from zoom factor 1, stepping and resetting stay in range
and Ctrl+0 yields exactly 1. -/
theorem c8_witness :
    (0.25 ≤ protectedWidgetState.zoom_factor ∧ protectedWidgetState.zoom_factor ≤ 5) ∧
    (0.25 ≤ (zoom_in protectedWidgetState).zoom_factor ∧
      (zoom_in protectedWidgetState).zoom_factor ≤ 5) ∧
    (0.25 ≤ (zoom_out protectedWidgetState).zoom_factor ∧
      (zoom_out protectedWidgetState).zoom_factor ≤ 5) ∧
    (reset_zoom protectedWidgetState).zoom_factor = 1 ∧
    ((keyPressEvent protectedWidgetState
        (KeyEvent.mk .Key_0 (Modifiers.mk true false false false))).1).zoom_factor = 1 := by
  have h := c8_zoom_factor_invariant protectedWidgetState
    (by norm_num [protectedWidgetState]) (by norm_num [protectedWidgetState])
  exact ⟨⟨by norm_num [protectedWidgetState], by norm_num [protectedWidgetState]⟩,
    h.2.2.1, h.2.2.2.1, h.2.2.2.2.1, h.2.2.2.2.2 _ rfl⟩

/-! ## Screenshot capture: canvas extraction with fallback -/

/-- Model of Python `str.find`: least index where `pat` occurs in the
remaining string, scanning left to right (`none` models `-1`). -/
def findSubAux (pat : PyStr) : PyStr → Nat → Option Nat
  | [], i => if List.isPrefixOf pat [] then some i else none
  | c :: rest, i =>
    if List.isPrefixOf pat (c :: rest) then some i
    else findSubAux pat rest (i + 1)

/-- `s.find(pat)` from Python. -/
def findSub (s pat : PyStr) : Option Nat := findSubAux pat s 0

/-- The standard base64 alphabet value of a character, `none` for
characters outside the alphabet. -/
def b64Table (c : Char) : Option Nat :=
  if 'A' ≤ c ∧ c ≤ 'Z' then some (c.toNat - 65)
  else if 'a' ≤ c ∧ c ≤ 'z' then some (c.toNat - 97 + 26)
  else if '0' ≤ c ∧ c ≤ '9' then some (c.toNat - 48 + 52)
  else if c = '+' then some 62
  else if c = '/' then some 63
  else none

/-- CPython `binascii.a2b_base64` in non-strict mode (the mode
`base64.b64decode` uses here): data characters accumulate in quads,
non-alphabet characters are discarded, '=' completes a quad once at least
two data characters are pending, and a trailing partial quad is an error
(`none` models the raised `binascii.Error`). -/
def a2bGo : PyStr → Nat → Nat → Nat → List Nat → Option (List Nat)
  | [], quadPos, _, _, out => if quadPos = 0 then some out else none
  | c :: rest, quadPos, leftchar, pads, out =>
    if c = '=' then
      if 2 ≤ quadPos then
        if 4 ≤ quadPos + (pads + 1) then some out
        else a2bGo rest quadPos leftchar (pads + 1) out
      else a2bGo rest quadPos leftchar pads out
    else
      match b64Table c with
      | none => a2bGo rest quadPos leftchar pads out
      | some v =>
        match quadPos with
        | 0 => a2bGo rest 1 v 0 out
        | 1 => a2bGo rest 2 (v % 16) 0 (out ++ [leftchar * 4 + v / 16])
        | 2 => a2bGo rest 3 (v % 4) 0 (out ++ [leftchar * 16 + v / 4])
        | _ => a2bGo rest 0 0 0 (out ++ [leftchar * 64 + v])

/-- Python `base64.b64decode` (with default `validate=False`) on a `str`
argument: the string is first ASCII-encoded, raising `ValueError` for any
character above 0x7F, then decoded by `binascii.a2b_base64`. -/
def b64decode (s : PyStr) : Option (List Nat) :=
  if s.all (fun c => c.toNat < 128) then a2bGo s 0 0 0 [] else none

/-- The JavaScript result passed to the capture callback: a string, or any
non-string value (`None`, a number, ...). -/
inductive JsValue where
  | vstr (s : PyStr)
  | nonString

/-- Observable outcome of the capture callback: the widget-grab fallback,
or a decoded byte file written into a target directory. -/
inductive CbOutcome where
  | fallback
  | write (dir : PyStr) (bytes : List Nat)
deriving DecidableEq

/-- The `_cb` callback inside `GameViewWidget.capture_canvas_to_file`:
non-string results, "__ERR__:" results and results without a "base64,"
marker fall back to the widget grab; otherwise the payload after the first
"base64," is base64-decoded and written into LCScreenshots — and when
decoding raises, the exception handler also falls back to the grab. -/
def capture_canvas_cb (result : JsValue) : CbOutcome :=
  match result with
  | .nonString => .fallback
  | .vstr s =>
    if List.isPrefixOf (pstr "__ERR__:") s then .fallback
    else
      match findSub s (pstr "base64,") with
      | none => .fallback
      | some idx =>
        match b64decode (s.drop (idx + (pstr "base64,").length)) with
        | none => .fallback
        | some bytes => .write (pstr "LCScreenshots") bytes

/-- C7 counterexample: the JavaScript result "base64,A" is a string, does
not start with "__ERR__:" and contains the "base64," marker, yet the
capture still uses the fallback grab, because the payload "A" is invalid
base64 and `base64.b64decode` raises. -/
theorem c7_counterexample :
    List.isPrefixOf (pstr "__ERR__:") (pstr "base64,A") = false ∧
    findSub (pstr "base64,A") (pstr "base64,") = some 0 ∧
    capture_canvas_cb (.vstr (pstr "base64,A")) = .fallback := by
  exact ⟨rfl, rfl, rfl⟩

/-- C7 (amended): the fallback grab is used exactly when the JavaScript
result is not a string, starts with "__ERR__:", has no "base64," marker,
or has a payload after the first marker that is not valid base64; when the
payload decodes, its bytes are written into the LCScreenshots directory
and the fallback is not used. -/
theorem c7_canvas_capture_fallback (r : JsValue) :
    (capture_canvas_cb r = .fallback ↔
      (r = .nonString ∨
        ∃ s, r = .vstr s ∧
          (List.isPrefixOf (pstr "__ERR__:") s = true ∨
           findSub s (pstr "base64,") = none ∨
           ∃ idx, findSub s (pstr "base64,") = some idx ∧
             b64decode (s.drop (idx + (pstr "base64,").length)) = none))) ∧
    (∀ s idx bytes, r = .vstr s →
      List.isPrefixOf (pstr "__ERR__:") s = false →
      findSub s (pstr "base64,") = some idx →
      b64decode (s.drop (idx + (pstr "base64,").length)) = some bytes →
      capture_canvas_cb r = .write (pstr "LCScreenshots") bytes) := by
  constructor
  · cases r with
    | nonString => simp [capture_canvas_cb]
    | vstr s =>
      unfold capture_canvas_cb
      cases herr : List.isPrefixOf (pstr "__ERR__:") s with
      | true =>
        simp [herr]
        exact Or.inl (List.isPrefixOf_iff_prefix.mp herr)
      | false =>
        cases hf : findSub s (pstr "base64,") with
        | none => simp [herr, hf]
        | some idx =>
          cases hb : b64decode (s.drop (idx + (pstr "base64,").length)) with
          | none => simp [herr, hf, hb]
          | some bytes =>
            simp [herr, hf, hb]
            exact fun hcon => absurd (List.isPrefixOf_iff_prefix.mpr hcon) (by simp [herr])
  · intro s idx bytes hr herr hf hb
    subst hr
    simp [capture_canvas_cb, herr, hf, hb]

/-- C7 witness: a well-formed data URL decodes and is written into
LCScreenshots without the fallback. -/
theorem c7_witness :
    List.isPrefixOf (pstr "__ERR__:") (pstr "data:image/png;base64,QUJD") = false ∧
    findSub (pstr "data:image/png;base64,QUJD") (pstr "base64,") = some 15 ∧
    b64decode ((pstr "data:image/png;base64,QUJD").drop (15 + (pstr "base64,").length)) =
      some [65, 66, 67] ∧
    capture_canvas_cb (.vstr (pstr "data:image/png;base64,QUJD")) =
      .write (pstr "LCScreenshots") [65, 66, 67] := by
  refine ⟨by decide, by decide, by decide, ?_⟩
  exact (c7_canvas_capture_fallback (.vstr (pstr "data:image/png;base64,QUJD"))).2
    _ 15 [65, 66, 67] rfl (by decide) (by decide) (by decide)

/-! ## Download redirection into LCScreenshots -/

/-- Python truthiness of an optional string attribute (`None` and the
empty string are falsy). -/
def pyTruthy : Option PyStr → Bool
  | none => false
  | some s => !s.isEmpty

/-- The suggested-name fallback chain of `on_download_requested`:
`downloadFileName()`, then `path()`, then `url().fileName()`, first truthy
value wins. -/
def firstSuggested (dfn pathAttr urlName : Option PyStr) : Option PyStr :=
  if pyTruthy dfn then dfn
  else if pyTruthy pathAttr then pathAttr
  else if pyTruthy urlName then urlName
  else none

/-- `os.path.basename` for POSIX paths: everything after the last '/'. -/
def basename (p : PyStr) : PyStr := (p.reverse.takeWhile (fun c => c != '/')).reverse

/-- The extension component of `os.path.splitext` on a basename: the part
from the last '.', provided some character before that dot is not itself a
dot (so ".hidden" has no extension). -/
def splitextExt (b : PyStr) : PyStr :=
  let r := b.reverse
  let after := r.takeWhile (fun c => c != '.')
  if after.length = r.length then []
  else if (r.drop (after.length + 1)).any (fun c => c != '.') then '.' :: after.reverse
  else []

/-- `GameViewWidget.on_download_requested`, with the wall-clock timestamp
`_lc_timestamp()` passed in as `ts` and the Qt6/Qt5 download APIs as
availability flags: returns `some (directory, filename)` when the
redirection was applied, `none` when no API applied. -/
def on_download_requested (downloadFileName pathAttr urlFileName : Option PyStr)
    (ts : PyStr) (hasQt6Api hasQt5Api : Bool) : Option (PyStr × PyStr) :=
  let suggested := firstSuggested downloadFileName pathAttr urlFileName
  let ext :=
    match suggested with
    | some s =>
      let sfx := splitextExt (basename s)
      if sfx ≠ [] then sfx else pstr ".png"
    | none => pstr ".png"
  let filename := pstr "LC_" ++ ts ++ ext
  if hasQt6Api then some (pstr "LCScreenshots", filename)
  else if hasQt5Api then some (pstr "LCScreenshots", filename)
  else none

/-- C10: every download whose redirection is applied lands in the
LCScreenshots directory under the name "LC_" + timestamp + extension,
where the extension comes from the suggested file name when it has one and
is ".png" otherwise. -/
theorem c10_download_redirect (dfn pa ufn : Option PyStr) (ts : PyStr) (q6 q5 : Bool)
    (pr : PyStr × PyStr)
    (h : on_download_requested dfn pa ufn ts q6 q5 = some pr) :
    pr.1 = pstr "LCScreenshots" ∧
    ((∃ s, firstSuggested dfn pa ufn = some s ∧ splitextExt (basename s) ≠ [] ∧
        pr.2 = pstr "LC_" ++ ts ++ splitextExt (basename s)) ∨
     ((∀ s, firstSuggested dfn pa ufn = some s → splitextExt (basename s) = []) ∧
        pr.2 = pstr "LC_" ++ ts ++ pstr ".png")) := by
  unfold on_download_requested at h
  cases hs : firstSuggested dfn pa ufn with
  | none =>
    rw [hs] at h
    dsimp only at h
    split_ifs at h <;>
      (injection h with h
       subst h
       exact ⟨rfl, Or.inr ⟨fun s hss => absurd hss (by simp), rfl⟩⟩)
  | some s =>
    rw [hs] at h
    dsimp only at h
    by_cases hsfx : splitextExt (basename s) = []
    · rw [hsfx] at h
      rw [if_neg (by simp : ¬(([] : PyStr) ≠ []))] at h
      split_ifs at h <;>
        (injection h with h
         subst h
         refine ⟨rfl, Or.inr ⟨fun s' hs' => ?_, rfl⟩⟩
         injection hs' with he
         rw [← he]
         exact hsfx)
    · rw [if_pos hsfx] at h
      split_ifs at h <;>
        (injection h with h
         subst h
         exact ⟨rfl, Or.inl ⟨s, rfl, hsfx, rfl⟩⟩)

/-- C10 witness: a suggested name "shot.jpeg" with the Qt6 API available
is redirected to LCScreenshots as LC_TS.jpeg. -/
theorem c10_witness :
    on_download_requested (some (pstr "shot.jpeg")) none none (pstr "TS") true false =
      some (pstr "LCScreenshots", pstr "LC_TS.jpeg") ∧
    (pstr "LCScreenshots", pstr "LC_TS.jpeg").1 = pstr "LCScreenshots" ∧
    ((∃ s, firstSuggested (some (pstr "shot.jpeg")) none none = some s ∧
        splitextExt (basename s) ≠ [] ∧
        (pstr "LCScreenshots", pstr "LC_TS.jpeg").2 =
          pstr "LC_" ++ pstr "TS" ++ splitextExt (basename s)) ∨
     ((∀ s, firstSuggested (some (pstr "shot.jpeg")) none none = some s →
        splitextExt (basename s) = []) ∧
        (pstr "LCScreenshots", pstr "LC_TS.jpeg").2 =
          pstr "LC_" ++ pstr "TS" ++ pstr ".png")) := by
  have h : on_download_requested (some (pstr "shot.jpeg")) none none (pstr "TS") true false =
      some (pstr "LCScreenshots", pstr "LC_TS.jpeg") := by decide
  exact ⟨h, c10_download_redirect _ _ _ _ _ _ _ h⟩
